import Mathlib

/-! The mysensors-prom gateway, `app/mysensors.go`.

A shallow embedding of `main` (the only function of `app/mysensors.go`) and of the
goroutine bodies it launches, as functions from the outcomes of the external calls
(serial port, MQTT client, registry, channels) to the trace of calls made and the way
the goroutine ends.  The library package `mysensors` (codec, registry, handler) is not
part of the sources; the parts needed are modelled from the specification and marked
as such.
-/

namespace MySensors

/-! ## Messages and the frame codec (library side) -/

/-- Modelled from the spec: the message types of the library (absent from the sources),
Presentation, Set, Request and Internal, with wire codes 0, 1, 2, 3. -/
inductive MessageType where
  | Presentation
  | Set
  | Request
  | Internal
  deriving DecidableEq

/-- Modelled from the spec: the `Message` type of the library (absent from the sources),
six fields in wire order. -/
structure Message where
  nodeID : Nat
  sensorID : Nat
  messageType : MessageType
  ack : Bool
  subType : Nat
  payload : String
  deriving DecidableEq

deriving instance DecidableEq for Except

/-- Modelled from the spec: the two codec failures. -/
inductive CodecError where
  | MalformedFrame
  | PayloadTooLong
  deriving DecidableEq

/-- Modelled from the spec: the field delimiter of a wire line (the codec is absent from
the sources; the scenario line `5;2;1;0;0;23.5` fixes it). -/
def delimiter : Char := ';'

/-- Modelled from the spec: the protocol maximum of the payload length, 25 bytes. -/
def maxPayload : Nat := 25

/-- Modelled from the spec: the protocol bound of nodeID and sensorID (255 is the
broadcast node and the node-level sensor). -/
def maxID : Nat := 255

/-- Modelled from the spec: wire code of a message type (the scenario line has 1 for Set). -/
def MessageType.code : MessageType → Nat
  | .Presentation => 0
  | .Set => 1
  | .Request => 2
  | .Internal => 3

/-- Modelled from the spec: message type of a wire code; `none` outside 0..3. -/
def MessageType.ofCode : Nat → Option MessageType
  | 0 => some .Presentation
  | 1 => some .Set
  | 2 => some .Request
  | 3 => some .Internal
  | _ => none

/-- Modelled from the spec: wire code of the ack flag. -/
def ackCode (b : Bool) : Nat := if b then 1 else 0

/-- Modelled from the spec: ack flag of a wire code; `none` outside 0..1. -/
def ackOfCode : Nat → Option Bool
  | 0 => some false
  | 1 => some true
  | _ => none

/-- Modelled from the spec: splitting a line on a delimiter, keeping empty fields; at most
`n` more splits are made, the last field takes the rest of the line; `cur` is the current
field, reversed. -/
def splitAux (d : Char) : Nat → List Char → List Char → List (List Char)
  | _, [], cur => [cur.reverse]
  | 0, c :: cs, cur => [cur.reverse ++ c :: cs]
  | n + 1, c :: cs, cur =>
    if c = d then cur.reverse :: splitAux d n cs [] else splitAux d (n + 1) cs (c :: cur)

/-- Modelled from the spec: the fields of a line, split on the delimiter into at most `n`
fields (the payload, the last of the six fields, is free text and keeps what follows the
fifth delimiter). -/
def splitFields (d : Char) (n : Nat) (cs : List Char) : List (List Char) :=
  splitAux d (n - 1) cs []

/-- Modelled from the spec: decimal text of a numeric field. -/
def formatNat (n : Nat) : List Char := Nat.toDigits 10 n

/-- Modelled from the spec: reading a numeric field; fails on the empty text and on any
non-digit. -/
def parseNat (cs : List Char) : Option Nat :=
  if cs ≠ [] ∧ cs.all Char.isDigit = true then
    some (cs.foldl (fun a c => 10 * a + (c.toNat - 48)) 0)
  else none

/-- Modelled from the spec: `decode` of the frame codec (absent from the sources).  The
line is split on the delimiter into exactly 6 fields (nodeID, sensorID, messageType, ack,
subType, payload); a different field count, or a numeric field that does not parse in its
range, is a `MalformedFrame`.  The subType is not checked against the message type.  The
split stops at the sixth field, as the round-trip law of the specification requires for a
payload that holds the delimiter. -/
def decode (line : String) : Except CodecError Message :=
  match splitFields delimiter 6 line.data with
  | [a, b, c, d, e, p] =>
    match parseNat a, parseNat b, (parseNat c).bind MessageType.ofCode,
        (parseNat d).bind ackOfCode, parseNat e with
    | some node, some sensor, some ty, some ack, some sub =>
      if node ≤ maxID ∧ sensor ≤ maxID then
        .ok { nodeID := node, sensorID := sensor, messageType := ty, ack := ack,
              subType := sub, payload := String.mk p }
      else .error .MalformedFrame
    | _, _, _, _, _ => .error .MalformedFrame
  | _ => .error .MalformedFrame

/-- Modelled from the spec: `encode` of the frame codec (absent from the sources).  The six
fields in the same order, joined by the delimiter; `PayloadTooLong` when the payload
exceeds the protocol maximum. -/
def encode (m : Message) : Except CodecError String :=
  if maxPayload < m.payload.utf8ByteSize then .error .PayloadTooLong
  else
    .ok (String.mk (List.intercalate [delimiter]
      [formatNat m.nodeID, formatNat m.sensorID, formatNat m.messageType.code,
       formatNat (ackCode m.ack), formatNat m.subType, m.payload.data]))

/-- A valid message: both identifiers within the protocol bounds and the payload no
longer than the protocol maximum. -/
def Message.Valid (m : Message) : Prop :=
  m.nodeID ≤ maxID ∧ m.sensorID ≤ maxID ∧ m.payload.utf8ByteSize ≤ maxPayload

instance (m : Message) : Decidable m.Valid := by
  unfold Message.Valid; infer_instance

/-! ## The persisted state (library side) -/

/-- Modelled from the spec: a sensor of the registry (the registry is absent from the
sources): identifier, type and last value. -/
structure Sensor where
  sensorID : Nat
  sensorType : Nat
  value : String
  deriving DecidableEq

/-- Modelled from the spec: a node of the registry: identifier, name and sensors. -/
structure Node where
  nodeID : Nat
  name : String
  sensors : List Sensor
  deriving DecidableEq

/-- Modelled from the spec: the registry, a table of nodes. -/
structure Network where
  nodes : List Node
  deriving DecidableEq

/-- Modelled from the spec: `NewNetwork` of the library is absent; a fresh registry has
no nodes. -/
def NewNetwork : Network := { nodes := [] }

/-- Modelled from the spec: the two snapshot failures. -/
inductive SnapshotError where
  | SnapshotReadError
  | SnapshotWriteError
  deriving DecidableEq

/-- Modelled from the spec: `Network.LoadJson` of the library is absent.  `fs` gives the
content of the file at a path (`none` when no file exists), `parse` reads a snapshot
(`none` when it is malformed).  A missing file is not an error and leaves the registry as
it is; a present but malformed file is a `SnapshotReadError`; otherwise the registry is
replaced wholesale by the snapshot. -/
def LoadJson (fs : String → Option String) (parse : String → Option Network)
    (n : Network) (path : String) : Except SnapshotError Network :=
  match fs path with
  | none => .ok n
  | some content =>
    match parse content with
    | none => .error .SnapshotReadError
    | some loaded => .ok loaded

/-- The error `main` sees from a `LoadJson` call. -/
def loadError : Except SnapshotError Network → Option String
  | .ok _ => none
  | .error .SnapshotReadError => some "snapshot read error"
  | .error .SnapshotWriteError => some "snapshot write error"

/-! ## Objects `main` creates -/

/-- The three channels made by `main`. -/
inductive Chan where
  | mqttCh
  | ch
  | sigCh
  deriving DecidableEq

/-- Capacity of each channel: `make(chan *mysensors.Message)` twice (lines 47, 54),
`make(chan os.Signal, 1)` (line 74). -/
def chanCap : Chan → Nat
  | .mqttCh => 0
  | .ch => 0
  | .sigCh => 1

/-- Modelled from the spec: the `Handler` type of the library is absent; a handler is
the record of the four arguments `NewHandler(reader, writer, ch, net)` was given
(the transport it reads, the transport it writes, its outbound channel, the registry). -/
structure Handler where
  reader : Nat
  writer : Nat
  out : Chan
  net : Nat
  deriving DecidableEq

/-- Modelled from the spec: `NewHandler` of the library is absent; it stores its arguments. -/
def NewHandler (r w : Nat) (c : Chan) (net : Nat) : Handler :=
  { reader := r, writer := w, out := c, net := net }

/-- The signals `main` subscribes to (line 75). -/
inductive Signal where
  | SIGINT
  | SIGTERM
  deriving DecidableEq

/-- The values the command line gives to the flags (lines 19-23), the default where it
gives none. -/
structure Flags where
  addr : String := ":9001"
  baud : Int := 115200
  port : String := "/dev/ttyUSB0"
  stateFile : String := ".mysensors-state"
  deriving DecidableEq

/-- One observable step of a goroutine: a call into a collaborator, a channel
operation, a goroutine launch or a log line. -/
inductive Event where
  | flagParse
  | openPort (name : String) (baud : Int)
  | makeChan (c : Chan) (cap : Nat)
  | mqttStart (c : Chan)
  | newNetwork (net : Nat)
  | loadJson (net : Nat) (path : String)
  | newHandler (h : Handler)
  | goWebServer (net : Nat)
  | signalNotify (c : Chan)
  | goSignalHandler (net : Nat)
  | goTicker (net : Nat)
  | goStart (h : Handler)
  | recv (c : Chan) (m : Message)
  | send (c : Chan) (m : Message)
  | handleMessage (net : Nat) (m : Message) (tx : Handler)
  | portWrite (p : Nat) (line : String)
  | recvSignal (s : Signal)
  | saveJson (net : Nat) (path : String)
  | handleFunc (pattern : String)
  | listenAndServe (addr : String)
  | printf (line : String)
  | fatalf (line : String)
  | exit (code : Nat)
  deriving DecidableEq

/-- How a goroutine (or the process) ends. -/
inductive Status where
  | exited (code : Nat)
  | returned
  | panicked (err : String)
  | blockedSend (c : Chan)
  | blockedRecv (c : Chan)
  | serving
  deriving DecidableEq

/-- A run: the events in program order and the final status. -/
structure Run where
  trace : List Event
  status : Status
  deriving DecidableEq

/-- What one call of `net.HandleMessage(m, tx)` does, as seen by `main`: the messages
the registry hands to `tx` during the call, and the error it returns (if any). -/
structure HandleOutcome where
  outbound : List Message
  err : Option String
  deriving DecidableEq

/-- The outcomes of every external call the process makes, and when the other goroutines
act. -/
structure World where
  /-- Exit status with which `flag.Parse()` ends the process when it rejects the command
  line (an undefined flag, a malformed value, a request for help), if it does. -/
  flagsRejected : Option Nat
  /-- Result of `serial.OpenPort(&serial.Config{Name, Baud})`: a port or an error. -/
  openPort : String → Int → Except String Nat
  /-- Error returned by `mqtt.Start(mqttCh)`, if any. -/
  mqttStart : Option String
  /-- The registry `mysensors.NewNetwork()` returns. -/
  newNetwork : Nat
  /-- Error returned by `net.LoadJson(path)`, if any. -/
  loadJson : String → Option String
  /-- The messages the handler offers on `ch`, each with what `HandleMessage` does on it. -/
  arrivals : List (Message × HandleOutcome)
  /-- Whether the handler closes `ch` after the last message. -/
  chClosed : Bool
  /-- How many messages the MQTT client takes from `mqttCh` before it stops receiving. -/
  mqttAccepts : Nat
  /-- Error returned by `http.ListenAndServe`, `none` when it keeps serving. -/
  listenAndServe : Option String
  /-- How many steps `main` makes after launching the web server before
  `http.ListenAndServe` returns its error. -/
  webSteps : Nat
  /-- The signals delivered on `sigCh`. -/
  signals : List Signal
  /-- How many steps `main` makes after launching the signal goroutine before the first
  signal is received. -/
  signalSteps : Nat
  /-- Error returned by `net.SaveJson(path)`, if any. -/
  saveJson : String → Option String

/-! ## The program -/

/-- Modelled from the spec: `Handler.Tx` of the library is absent; transmit serialises
the message with the codec and writes the line to the handler's transport (nothing is
written when encoding fails). -/
def Handler.Tx (h : Handler) (m : Message) : List Event :=
  match encode m with
  | .ok line => [.portWrite h.writer line]
  | .error _ => []

/-- Modelled from the spec: `Network.HandleMessage` of the library is absent; seen from
`main`, one call hands zero or more outbound messages to the transmit function it was
given and returns an error or none.  Both are taken from the call's outcome. -/
def HandleMessage (net : Nat) (m : Message) (tx : Handler) (o : HandleOutcome) :
    List Event × Option String :=
  (.handleMessage net m tx :: (o.outbound.map tx.Tx).flatten, o.err)

/-- The consumer loop of `main` (lines 94-99): `for m := range ch`, send `m` on `mqttCh`,
call `net.HandleMessage(m, h.Tx)`, log its error.  `budget` is the number of sends on
`mqttCh` that can still complete; a send that cannot complete blocks for good. -/
def consumerLoop (net : Nat) (h : Handler) (closed : Bool) :
    Nat → List (Message × HandleOutcome) → Run
  | _, [] => ⟨[], if closed then .returned else .blockedRecv .ch⟩
  | 0, (m, _) :: _ => ⟨[.recv .ch m], .blockedSend .mqttCh⟩
  | k + 1, (m, o) :: rest =>
    let r := consumerLoop net h closed k rest
    let hm := HandleMessage net m h o
    let log : List Event :=
      match hm.2 with
      | some e => [.printf ("HandleMessage: " ++ e ++ "\n")]
      | none => []
    ⟨[.recv .ch m, .send .mqttCh m] ++ hm.1 ++ log ++ r.trace, r.status⟩

/-- Width in bits of the Go type `int`, the type of the `baud` flag, on a 64-bit platform. -/
def intSize : Nat := 64

/-- The call `flag.Parse()` of line 35: the exit status with which it ends the process,
`none` when it returns.  The flag set of the command line exits on error: status 2 for a
value of `baud` that does not fit an `int`, the status the world gives when the command
line is rejected for another reason. -/
def flagParse (f : Flags) (w : World) : Option Nat :=
  match w.flagsRejected with
  | some c => some c
  | none =>
    if -(2 : Int) ^ (intSize - 1) ≤ f.baud ∧ f.baud < (2 : Int) ^ (intSize - 1) then none
    else some 2

/-- The main goroutine (lines 34-100), run until it ends or blocks for good. -/
def main (f : Flags) (w : World) : Run :=
  match flagParse f w with
  | some c => ⟨[.flagParse], .exited c⟩
  | none =>
    let t0 : List Event := [.flagParse, .openPort f.port f.baud]
    match w.openPort f.port f.baud with
    | .error e =>
      ⟨t0 ++ [.fatalf ("Error opening serial port " ++ f.port ++ ": " ++ e)], .exited 1⟩
    | .ok p =>
      let t1 := t0 ++ [.makeChan .mqttCh (chanCap .mqttCh), .mqttStart .mqttCh]
      match w.mqttStart with
      | some e => ⟨t1 ++ [.fatalf ("Error starting MQTT client: " ++ e)], .exited 1⟩
      | none =>
        let net := w.newNetwork
        let t2 := t1 ++
          [.makeChan .ch (chanCap .ch), .newNetwork net, .loadJson net f.stateFile]
        match w.loadJson f.stateFile with
        | some e => ⟨t2 ++ [.fatalf ("Error loading state: " ++ e)], .exited 1⟩
        | none =>
          let h := NewHandler p p .ch net
          let t3 := t2 ++ [.newHandler h, .goWebServer net, .makeChan .sigCh (chanCap .sigCh),
            .signalNotify .sigCh, .goSignalHandler net, .goTicker net, .goStart h]
          let r := consumerLoop net h w.chClosed (w.mqttAccepts + chanCap .mqttCh) w.arrivals
          ⟨t3 ++ r.trace, r.status⟩

/-- The web-server goroutine (lines 62-71); `listen` is the error `http.ListenAndServe`
returns, `none` when it keeps serving. -/
def webServer (f : Flags) (listen : Option String) : Run :=
  let t : List Event := [.handleFunc "/", .handleFunc "/metrics", .listenAndServe f.addr]
  match listen with
  | some e => ⟨t, .panicked e⟩
  | none => ⟨t, .serving⟩

/-- The signal goroutine (lines 76-83): `for range sigCh`, save the state, log a failure,
`os.Exit(0)`.  `signals` are the signals delivered on `sigCh`, `save` the error
`net.SaveJson(path)` returns, if any. -/
def signalHandler (f : Flags) (net : Nat) (save : String → Option String) :
    List Signal → Run
  | [] => ⟨[], .blockedRecv .sigCh⟩
  | s :: _ =>
    let log : List Event :=
      match save f.stateFile with
      | some e => [.printf ("Error writing state file [" ++ f.stateFile ++ "]: " ++ e)]
      | none => []
    ⟨[.recvSignal s, .saveJson net f.stateFile] ++ log ++ [.exit 0], .exited 0⟩

/-- The whole process: the main goroutine together with the web-server goroutine and the
signal goroutine it launches.  A startup exit of `main` ends the process before any
goroutine exists.  Afterwards the process ends with the first of: the panic of the web
server when `http.ListenAndServe` fails, the `os.Exit(0)` of the signal goroutine on the
first signal, the return of `main` when `ch` is closed.  The trace is what `main` did up
to that point, followed by the events of the goroutine that ends the process. -/
def process (f : Flags) (w : World) : Run :=
  let m := main f w
  match m.status with
  | .exited _ => m
  | _ =>
    let web := webServer f w.listenAndServe
    let sig := signalHandler f w.newNetwork w.saveJson w.signals
    let tW := m.trace.indexOf (.goWebServer w.newNetwork) + 1 + w.webSteps
    let tS := m.trace.indexOf (.goSignalHandler w.newNetwork) + 1 + w.signalSteps
    if w.listenAndServe ≠ none ∧ (w.signals ≠ [] → tW ≤ tS) ∧
        (m.status = .returned → tW ≤ m.trace.length) then
      ⟨m.trace.take tW ++ web.trace, web.status⟩
    else if w.signals ≠ [] ∧ (m.status = .returned → tS ≤ m.trace.length) then
      ⟨m.trace.take tS ++ sig.trace, sig.status⟩
    else m

/-! ## Reading a trace -/

/-- Messages taken off `ch`. -/
def received (t : List Event) : List Message :=
  t.filterMap fun e => match e with
    | .recv .ch m => some m
    | _ => none

/-- Messages whose send on `mqttCh` completed. -/
def sent (t : List Event) : List Message :=
  t.filterMap fun e => match e with
    | .send .mqttCh m => some m
    | _ => none

/-- Messages `HandleMessage` was called on. -/
def handled (t : List Event) : List Message :=
  t.filterMap fun e => match e with
    | .handleMessage _ m _ => some m
    | _ => none

/-- Lines written with `log.Printf`. -/
def logLines (t : List Event) : List String :=
  t.filterMap fun e => match e with
    | .printf l => some l
    | _ => none

/-- Calls of `LoadJson`: registry and path. -/
def loadCalls (t : List Event) : List (Nat × String) :=
  t.filterMap fun e => match e with
    | .loadJson n q => some (n, q)
    | _ => none

/-- Calls of `SaveJson`: registry and path. -/
def saveCalls (t : List Event) : List (Nat × String) :=
  t.filterMap fun e => match e with
    | .saveJson n q => some (n, q)
    | _ => none

/-- Writes on a port: port and line. -/
def portWrites (t : List Event) : List (Nat × String) :=
  t.filterMap fun e => match e with
    | .portWrite q l => some (q, l)
    | _ => none

/-- The wire lines of the messages that encode, each paired with the port `q`. -/
def wireLines (q : Nat) (ms : List Message) : List (Nat × String) :=
  ms.filterMap fun m => match encode m with
    | .ok line => some (q, line)
    | .error _ => none

/-- Events that only happen once the gateway runs: the handler is constructed or started,
the web server or the signal handling is started, a message is handled. -/
def Event.isGateway : Event → Bool
  | .newHandler _ => true
  | .goStart _ => true
  | .goWebServer _ => true
  | .signalNotify _ => true
  | .goSignalHandler _ => true
  | .handleMessage _ _ _ => true
  | _ => false

/-- The log line of a `HandleMessage` error, if the call fails. -/
def errLine (a : Message × HandleOutcome) : Option String :=
  a.2.err.map fun e => "HandleMessage: " ++ e ++ "\n"

/-- The log line of a failed `SaveJson`. -/
def saveErrLine (f : Flags) (e : String) : String :=
  "Error writing state file [" ++ f.stateFile ++ "]: " ++ e

/-- The events of a successful startup (lines 35-93), in program order. -/
def startupTrace (f : Flags) (net p : Nat) : List Event :=
  [.flagParse, .openPort f.port f.baud, .makeChan .mqttCh 0, .mqttStart .mqttCh,
   .makeChan .ch 0, .newNetwork net, .loadJson net f.stateFile,
   .newHandler (NewHandler p p .ch net), .goWebServer net, .makeChan .sigCh 1,
   .signalNotify .sigCh, .goSignalHandler net, .goTicker net,
   .goStart (NewHandler p p .ch net)]

/-! ## Sample runs -/

/-- A temperature reading of node 5, sensor 2. -/
def msgA : Message := ⟨5, 2, .Set, false, 0, "23.5"⟩

/-- An id request of a new node. -/
def msgB : Message := ⟨255, 255, .Internal, false, 3, ""⟩

/-- The id response the registry sends back. -/
def msgC : Message := ⟨255, 255, .Internal, false, 4, "9"⟩

/-- A valid message whose payload holds the delimiter. -/
def msgSemi : Message := ⟨1, 2, .Set, false, 0, "a;b"⟩

/-- Two messages, the second one failing in `HandleMessage` after an id response. -/
def twoArrivals : List (Message × HandleOutcome) :=
  [(msgA, ⟨[], none⟩), (msgB, ⟨[msgC], some "boom"⟩)]

/-- A world in which the command line is accepted, the three startup calls succeed, the
web server keeps serving and no signal arrives. -/
def sampleWorld (arrivals : List (Message × HandleOutcome)) (closed : Bool) (k : Nat) : World :=
  { flagsRejected := none, openPort := fun _ _ => .ok 7, mqttStart := none, newNetwork := 1,
    loadJson := fun _ => none, arrivals := arrivals, chClosed := closed, mqttAccepts := k,
    listenAndServe := none, webSteps := 0, signals := [], signalSteps := 0,
    saveJson := fun _ => none }

/-- Two messages, the first one failing in `HandleMessage` after an id response. -/
def failFirst : List (Message × HandleOutcome) :=
  [(msgB, ⟨[msgC], some "boom"⟩), (msgA, ⟨[], none⟩)]

/-- A world in which a signal arrives when `main` has received `msgA` and not yet sent it
(three steps after the launch of the signal goroutine). -/
def signalWorld : World :=
  { sampleWorld twoArrivals false 2 with signals := [.SIGINT], signalSteps := 3 }

/-- A world whose web server cannot listen. -/
def badListenWorld : World :=
  { sampleWorld twoArrivals false 2 with listenAndServe := some "address already in use" }

/-- A world whose web server fails when `main` has received `msgA` and not yet sent it
(six steps after the launch of the web server). -/
def lateListenWorld : World :=
  { sampleWorld twoArrivals false 2 with
    listenAndServe := some "address already in use", webSteps := 6 }

/-- A world whose state file is present but unreadable. -/
def badStateWorld : World :=
  { sampleWorld twoArrivals true 2 with loadJson := fun _ => some "unexpected end of JSON input" }

/-- A world whose serial port cannot be opened. -/
def noPortWorld : World :=
  { sampleWorld twoArrivals true 2 with openPort := fun _ _ => .error "no such file or directory" }

/-- A world whose MQTT client cannot be started. -/
def noMqttWorld : World :=
  { sampleWorld twoArrivals true 2 with mqttStart := some "connection refused" }

/-- A first run: no file anywhere, every other startup call succeeds. -/
def firstRunWorld : World :=
  { sampleWorld twoArrivals true 2 with
    loadJson := fun path => loadError (LoadJson (fun _ => none) (fun _ => none) NewNetwork path) }

/-! ## Lemmas on the consumer loop -/

theorem mem_tx_events {h : Handler} {l : List Message} {e : Event}
    (he : e ∈ (l.map h.Tx).flatten) : ∃ line, e = .portWrite h.writer line := by
  simp only [List.mem_flatten, List.mem_map] at he
  obtain ⟨t, ⟨m, _, rfl⟩, het⟩ := he
  unfold Handler.Tx at het
  split at het
  · simp only [List.mem_singleton] at het
    exact ⟨_, het⟩
  · simp at het

theorem received_tx (h : Handler) (l : List Message) :
    received ((l.map h.Tx).flatten) = [] := by
  unfold received
  rw [List.filterMap_eq_nil_iff]
  intro e he
  obtain ⟨line, rfl⟩ := mem_tx_events he
  rfl

theorem sent_tx (h : Handler) (l : List Message) :
    sent ((l.map h.Tx).flatten) = [] := by
  unfold sent
  rw [List.filterMap_eq_nil_iff]
  intro e he
  obtain ⟨line, rfl⟩ := mem_tx_events he
  rfl

theorem handled_tx (h : Handler) (l : List Message) :
    handled ((l.map h.Tx).flatten) = [] := by
  unfold handled
  rw [List.filterMap_eq_nil_iff]
  intro e he
  obtain ⟨line, rfl⟩ := mem_tx_events he
  rfl

theorem logLines_tx (h : Handler) (l : List Message) :
    logLines ((l.map h.Tx).flatten) = [] := by
  unfold logLines
  rw [List.filterMap_eq_nil_iff]
  intro e he
  obtain ⟨line, rfl⟩ := mem_tx_events he
  rfl

theorem received_append (s t : List Event) : received (s ++ t) = received s ++ received t := by
  simp [received]

theorem sent_append (s t : List Event) : sent (s ++ t) = sent s ++ sent t := by
  simp [sent]

theorem handled_append (s t : List Event) : handled (s ++ t) = handled s ++ handled t := by
  simp [handled]

theorem logLines_append (s t : List Event) : logLines (s ++ t) = logLines s ++ logLines t := by
  simp [logLines]

theorem loadCalls_append (s t : List Event) :
    loadCalls (s ++ t) = loadCalls s ++ loadCalls t := by
  simp [loadCalls]

theorem portWrites_append (s t : List Event) :
    portWrites (s ++ t) = portWrites s ++ portWrites t := by
  simp [portWrites]

theorem wireLines_append (q : Nat) (s t : List Message) :
    wireLines q (s ++ t) = wireLines q s ++ wireLines q t := by
  simp [wireLines]

theorem portWrites_tx (h : Handler) (l : List Message) :
    portWrites ((l.map h.Tx).flatten) = wireLines h.writer l := by
  induction l with
  | nil => rfl
  | cons m rest ih =>
    simp only [List.map_cons, List.flatten_cons, portWrites_append, ih]
    unfold Handler.Tx wireLines
    rw [List.filterMap_cons]
    cases encode m <;> rfl

/-- One round of the loop: the trace of `consumerLoop` on a non-empty queue with budget. -/
theorem consumerLoop_cons (net : Nat) (h : Handler) (closed : Bool) (k : Nat)
    (m : Message) (o : HandleOutcome) (rest : List (Message × HandleOutcome)) :
    consumerLoop net h closed (k + 1) ((m, o) :: rest) =
      ⟨[.recv .ch m, .send .mqttCh m, .handleMessage net m h] ++
          (o.outbound.map h.Tx).flatten ++
          (errLine (m, o)).toList.map Event.printf ++
          (consumerLoop net h closed k rest).trace,
        (consumerLoop net h closed k rest).status⟩ := by
  obtain ⟨out, err⟩ := o
  cases err <;> rfl

theorem consumerLoop_received (net : Nat) (h : Handler) (closed : Bool) :
    ∀ (arrivals : List (Message × HandleOutcome)) (budget : Nat),
      received (consumerLoop net h closed budget arrivals).trace =
        (arrivals.take (budget + 1)).map Prod.fst := by
  intro arrivals
  induction arrivals with
  | nil => intro budget; cases budget <;> rfl
  | cons a rest ih =>
    intro budget
    obtain ⟨m, o⟩ := a
    cases budget with
    | zero => simp [consumerLoop, received]
    | succ k =>
      have hl : received ((errLine (m, o)).toList.map Event.printf) = [] := by
        cases errLine (m, o) <;> rfl
      rw [consumerLoop_cons]
      simp only [received_append, received_tx, hl, ih k, List.append_nil, List.take_succ_cons,
        List.map_cons]
      rfl

theorem consumerLoop_sent (net : Nat) (h : Handler) (closed : Bool) :
    ∀ (arrivals : List (Message × HandleOutcome)) (budget : Nat),
      sent (consumerLoop net h closed budget arrivals).trace =
        (arrivals.take budget).map Prod.fst := by
  intro arrivals
  induction arrivals with
  | nil => intro budget; cases budget <;> rfl
  | cons a rest ih =>
    intro budget
    obtain ⟨m, o⟩ := a
    cases budget with
    | zero => simp [consumerLoop, sent]
    | succ k =>
      have hl : sent ((errLine (m, o)).toList.map Event.printf) = [] := by
        cases errLine (m, o) <;> rfl
      rw [consumerLoop_cons]
      simp only [sent_append, sent_tx, hl, ih k, List.append_nil, List.take_succ_cons,
        List.map_cons]
      rfl

theorem consumerLoop_handled (net : Nat) (h : Handler) (closed : Bool) :
    ∀ (arrivals : List (Message × HandleOutcome)) (budget : Nat),
      handled (consumerLoop net h closed budget arrivals).trace =
        (arrivals.take budget).map Prod.fst := by
  intro arrivals
  induction arrivals with
  | nil => intro budget; cases budget <;> rfl
  | cons a rest ih =>
    intro budget
    obtain ⟨m, o⟩ := a
    cases budget with
    | zero => simp [consumerLoop, handled]
    | succ k =>
      have hl : handled ((errLine (m, o)).toList.map Event.printf) = [] := by
        cases errLine (m, o) <;> rfl
      rw [consumerLoop_cons]
      simp only [handled_append, handled_tx, hl, ih k, List.append_nil, List.take_succ_cons,
        List.map_cons]
      rfl

theorem consumerLoop_logLines (net : Nat) (h : Handler) (closed : Bool) :
    ∀ (arrivals : List (Message × HandleOutcome)) (budget : Nat),
      logLines (consumerLoop net h closed budget arrivals).trace =
        (arrivals.take budget).filterMap errLine := by
  intro arrivals
  induction arrivals with
  | nil => intro budget; cases budget <;> rfl
  | cons a rest ih =>
    intro budget
    obtain ⟨m, o⟩ := a
    cases budget with
    | zero => simp [consumerLoop, logLines]
    | succ k =>
      have hl : logLines ((errLine (m, o)).toList.map Event.printf) = (errLine (m, o)).toList := by
        cases errLine (m, o) <;> rfl
      rw [consumerLoop_cons]
      simp only [logLines_append, logLines_tx, hl, ih k, List.append_nil, List.take_succ_cons,
        List.filterMap_cons]
      cases errLine (m, o) <;> rfl

theorem consumerLoop_status (net : Nat) (h : Handler) (closed : Bool) :
    ∀ (arrivals : List (Message × HandleOutcome)) (budget : Nat),
      (consumerLoop net h closed budget arrivals).status =
        if budget < arrivals.length then .blockedSend .mqttCh
        else if closed then .returned else .blockedRecv .ch := by
  intro arrivals
  induction arrivals with
  | nil => intro budget; cases budget <;> simp [consumerLoop]
  | cons a rest ih =>
    intro budget
    obtain ⟨m, o⟩ := a
    cases budget with
    | zero => simp [consumerLoop]
    | succ k =>
      rw [consumerLoop_cons]
      simp only [ih k, List.length_cons, Nat.add_lt_add_iff_right]

/-- Every write of the loop goes to the writer of the handler whose `Tx` it passes on. -/
theorem consumerLoop_portWrite (net : Nat) (h : Handler) (closed : Bool) :
    ∀ (arrivals : List (Message × HandleOutcome)) (budget : Nat) (q : Nat) (line : String),
      Event.portWrite q line ∈ (consumerLoop net h closed budget arrivals).trace →
        q = h.writer := by
  intro arrivals
  induction arrivals with
  | nil => intro budget q line hm; cases budget <;> simp [consumerLoop] at hm
  | cons a rest ih =>
    intro budget q line hm
    obtain ⟨m, o⟩ := a
    cases budget with
    | zero => simp [consumerLoop] at hm
    | succ k =>
      rw [consumerLoop_cons] at hm
      simp only [List.mem_append] at hm
      rcases hm with ((hm | hm) | hm) | hm
      · simp at hm
      · obtain ⟨l, hl⟩ := mem_tx_events hm
        injection hl
      · cases errLine (m, o) <;> simp at hm
      · exact ih k q line hm

theorem consumerLoop_portWrites (net : Nat) (h : Handler) (closed : Bool) :
    ∀ (arrivals : List (Message × HandleOutcome)) (budget : Nat),
      portWrites (consumerLoop net h closed budget arrivals).trace =
        wireLines h.writer ((arrivals.take budget).map fun a => a.2.outbound).flatten := by
  intro arrivals
  induction arrivals with
  | nil => intro budget; cases budget <;> rfl
  | cons a rest ih =>
    intro budget
    obtain ⟨m, o⟩ := a
    cases budget with
    | zero => simp [consumerLoop, portWrites, wireLines]
    | succ k =>
      have hl : portWrites ((errLine (m, o)).toList.map Event.printf) = [] := by
        cases errLine (m, o) <;> rfl
      rw [consumerLoop_cons]
      simp only [portWrites_append, portWrites_tx, hl, ih k, List.append_nil,
        List.take_succ_cons, List.map_cons, List.flatten_cons, wireLines_append]
      rfl

/-- Every `HandleMessage` call of the loop is on the loop's registry with the `Tx` of the
loop's handler. -/
theorem consumerLoop_handleMessage (net : Nat) (h : Handler) (closed : Bool) :
    ∀ (arrivals : List (Message × HandleOutcome)) (budget : Nat) (n : Nat) (m : Message)
      (tx : Handler),
      Event.handleMessage n m tx ∈ (consumerLoop net h closed budget arrivals).trace →
        n = net ∧ tx = h := by
  intro arrivals
  induction arrivals with
  | nil => intro budget n m tx hm; cases budget <;> simp [consumerLoop] at hm
  | cons a rest ih =>
    intro budget n m tx hm
    obtain ⟨m0, o⟩ := a
    cases budget with
    | zero => simp [consumerLoop] at hm
    | succ k =>
      rw [consumerLoop_cons] at hm
      simp only [List.mem_append] at hm
      rcases hm with ((hm | hm) | hm) | hm
      · simp at hm
        exact ⟨hm.1, hm.2.2⟩
      · obtain ⟨l, hl⟩ := mem_tx_events hm
        cases hl
      · cases errLine (m0, o) <;> simp at hm
      · exact ih k n m tx hm

/-- The loop never constructs or starts anything: its gateway events are `HandleMessage` calls. -/
theorem consumerLoop_no_startup (net : Nat) (h : Handler) (closed : Bool) :
    ∀ (arrivals : List (Message × HandleOutcome)) (budget : Nat) (e : Event),
      e ∈ (consumerLoop net h closed budget arrivals).trace →
        (∀ n q, e ≠ .loadJson n q) ∧ (∀ x, e ≠ .newHandler x) ∧ (∀ x, e ≠ .goStart x) := by
  intro arrivals
  induction arrivals with
  | nil => intro budget e hm; cases budget <;> simp [consumerLoop] at hm
  | cons a rest ih =>
    intro budget e hm
    obtain ⟨m0, o⟩ := a
    cases budget with
    | zero =>
      simp [consumerLoop] at hm
      subst hm
      simp
    | succ k =>
      rw [consumerLoop_cons] at hm
      simp only [List.mem_append] at hm
      rcases hm with ((hm | hm) | hm) | hm
      · simp at hm
        rcases hm with rfl | rfl | rfl <;> simp
      · obtain ⟨l, rfl⟩ := mem_tx_events hm
        simp
      · cases hx : errLine (m0, o) <;> simp [hx] at hm
        subst hm
        simp
      · exact ih k e hm

theorem consumerLoop_loadCalls (net : Nat) (h : Handler) (closed : Bool)
    (arrivals : List (Message × HandleOutcome)) (budget : Nat) :
    loadCalls (consumerLoop net h closed budget arrivals).trace = [] := by
  unfold loadCalls
  rw [List.filterMap_eq_nil_iff]
  intro e he
  have hne := (consumerLoop_no_startup net h closed arrivals budget e he).1
  cases e <;> first | rfl | exact absurd rfl (hne _ _)

theorem length_filterMap_errLine (l : List (Message × HandleOutcome)) :
    (l.filterMap errLine).length = (l.filter fun a => a.2.err.isSome).length := by
  induction l with
  | nil => rfl
  | cons a rest ih =>
    obtain ⟨m, out, err⟩ := a
    cases err <;> simp [errLine, List.filterMap_cons, List.filter_cons] at ih ⊢ <;> exact ih

/-! ## Lemmas on `main` and the signal goroutine -/

/-- When the three startup calls succeed, `main` is the startup followed by the loop. -/
theorem main_started (f : Flags) (w : World) (p : Nat) (hf : flagParse f w = none)
    (hp : w.openPort f.port f.baud = .ok p) (hm : w.mqttStart = none)
    (hl : w.loadJson f.stateFile = none) :
    main f w =
      ⟨startupTrace f w.newNetwork p ++
          (consumerLoop w.newNetwork (NewHandler p p .ch w.newNetwork) w.chClosed
            w.mqttAccepts w.arrivals).trace,
        (consumerLoop w.newNetwork (NewHandler p p .ch w.newNetwork) w.chClosed
            w.mqttAccepts w.arrivals).status⟩ := by
  simp only [main, hf, hp, hm, hl, chanCap, startupTrace, Nat.add_zero, List.cons_append,
    List.nil_append]

theorem main_flags_rejected (f : Flags) (w : World) (c : Nat) (hf : flagParse f w = some c) :
    main f w = ⟨[.flagParse], .exited c⟩ := by
  simp only [main, hf]

theorem main_port_failed (f : Flags) (w : World) (e : String) (hf : flagParse f w = none)
    (hp : w.openPort f.port f.baud = .error e) :
    main f w =
      ⟨[.flagParse, .openPort f.port f.baud,
        .fatalf ("Error opening serial port " ++ f.port ++ ": " ++ e)], .exited 1⟩ := by
  simp only [main, hf, hp, List.cons_append, List.nil_append]

theorem main_mqtt_failed (f : Flags) (w : World) (p : Nat) (e : String)
    (hf : flagParse f w = none)
    (hp : w.openPort f.port f.baud = .ok p) (hm : w.mqttStart = some e) :
    main f w =
      ⟨[.flagParse, .openPort f.port f.baud, .makeChan .mqttCh 0, .mqttStart .mqttCh,
        .fatalf ("Error starting MQTT client: " ++ e)], .exited 1⟩ := by
  simp only [main, hf, hp, hm, chanCap, List.cons_append, List.nil_append]

theorem main_load_failed (f : Flags) (w : World) (p : Nat) (e : String)
    (hf : flagParse f w = none)
    (hp : w.openPort f.port f.baud = .ok p) (hm : w.mqttStart = none)
    (hl : w.loadJson f.stateFile = some e) :
    main f w =
      ⟨[.flagParse, .openPort f.port f.baud, .makeChan .mqttCh 0, .mqttStart .mqttCh,
        .makeChan .ch 0, .newNetwork w.newNetwork, .loadJson w.newNetwork f.stateFile,
        .fatalf ("Error loading state: " ++ e)], .exited 1⟩ := by
  simp only [main, hf, hp, hm, hl, chanCap, List.cons_append, List.nil_append]

/-- The trace of the signal goroutine once a signal has arrived. -/
theorem signalHandler_cons (f : Flags) (net : Nat) (save : String → Option String)
    (s : Signal) (rest : List Signal) :
    signalHandler f net save (s :: rest) =
      ⟨[.recvSignal s, .saveJson net f.stateFile] ++
          ((save f.stateFile).toList.map fun e => Event.printf (saveErrLine f e)) ++ [.exit 0],
        .exited 0⟩ := by
  unfold signalHandler
  cases save f.stateFile <;> rfl

/-! ## Lemmas on the frame codec -/

theorem digitChar_isDigit (d : Nat) (hd : d < 10) :
    (Nat.digitChar d).isDigit = true ∧ (Nat.digitChar d).toNat - 48 = d := by
  interval_cases d <;> exact ⟨by decide, by decide⟩

theorem toDigitsCore_all_digits :
    ∀ (fuel n : Nat) (ds : List Char), (∀ c ∈ ds, c.isDigit = true) →
      ∀ c ∈ Nat.toDigitsCore 10 fuel n ds, c.isDigit = true := by
  intro fuel
  induction fuel with
  | zero => intro n ds hds c hc; exact hds c hc
  | succ k ih =>
    intro n ds hds c hc
    have hd := (digitChar_isDigit (n % 10) (Nat.mod_lt _ (by decide))).1
    have hds2 : ∀ c ∈ Nat.digitChar (n % 10) :: ds, c.isDigit = true := by
      intro c hc
      rcases List.mem_cons.mp hc with rfl | hc
      · exact hd
      · exact hds c hc
    unfold Nat.toDigitsCore at hc
    simp only at hc
    split at hc
    · exact hds2 c hc
    · exact ih _ _ hds2 c hc

theorem toDigitsCore_ne_nil :
    ∀ (fuel n : Nat) (ds : List Char), (fuel ≠ 0 ∨ ds ≠ []) →
      Nat.toDigitsCore 10 fuel n ds ≠ [] := by
  intro fuel
  induction fuel with
  | zero =>
    intro n ds h
    rcases h with h | h
    · exact absurd rfl h
    · exact h
  | succ k ih =>
    intro n ds _
    unfold Nat.toDigitsCore
    simp only
    split
    · exact List.cons_ne_nil _ _
    · exact ih _ _ (Or.inr (List.cons_ne_nil _ _))

theorem toDigitsCore_value :
    ∀ (fuel n : Nat) (ds : List Char), n < fuel →
      (Nat.toDigitsCore 10 fuel n ds).foldl (fun a c => 10 * a + (c.toNat - 48)) 0 =
        ds.foldl (fun a c => 10 * a + (c.toNat - 48)) n := by
  intro fuel
  induction fuel with
  | zero => intro n ds h; exact absurd h (Nat.not_lt_zero _)
  | succ k ih =>
    intro n ds h
    have hd := (digitChar_isDigit (n % 10) (Nat.mod_lt _ (by decide))).2
    unfold Nat.toDigitsCore
    simp only
    split
    · rename_i h0
      simp only [List.foldl_cons, hd]
      have : n % 10 = n := by omega
      simp [this]
    · rename_i h0
      rw [ih (n / 10) _ (by omega)]
      simp only [List.foldl_cons, hd]
      have : 10 * (n / 10) + n % 10 = n := Nat.div_add_mod n 10
      rw [this]

theorem formatNat_all_digits (n : Nat) : ∀ c ∈ formatNat n, c.isDigit = true :=
  toDigitsCore_all_digits _ _ [] (by simp)

theorem formatNat_no_delimiter (n : Nat) : delimiter ∉ formatNat n := by
  intro h
  have := formatNat_all_digits n _ h
  revert this
  decide

/-- Reading back the decimal text of a number gives the number. -/
theorem parseNat_formatNat (n : Nat) : parseNat (formatNat n) = some n := by
  unfold parseNat
  have h1 : formatNat n ≠ [] := toDigitsCore_ne_nil _ _ [] (Or.inl (Nat.succ_ne_zero _))
  have h2 : (formatNat n).all Char.isDigit = true :=
    List.all_eq_true.mpr (formatNat_all_digits n)
  rw [if_pos ⟨h1, h2⟩]
  have := toDigitsCore_value (n + 1) n [] (Nat.lt_succ_self n)
  simp only [List.foldl_nil] at this
  unfold formatNat Nat.toDigits
  rw [this]

theorem ofCode_code (t : MessageType) : MessageType.ofCode t.code = some t := by
  cases t <;> rfl

theorem ackOfCode_ackCode (b : Bool) : ackOfCode (ackCode b) = some b := by
  cases b <;> rfl

theorem splitAux_rest (d : Char) (xs cur : List Char) :
    splitAux d 0 xs cur = [cur.reverse ++ xs] := by
  cases xs <;> simp [splitAux]

theorem splitAux_field (d : Char) (n : Nat) :
    ∀ (xs cur ys : List Char), d ∉ xs →
      splitAux d (n + 1) (xs ++ d :: ys) cur = (cur.reverse ++ xs) :: splitAux d n ys [] := by
  intro xs
  induction xs with
  | nil => intro cur ys _; simp [splitAux]
  | cons c cs ih =>
    intro cur ys h
    have hc : c ≠ d := fun hcd => h (by simp [hcd])
    have hcs : d ∉ cs := fun hm => h (List.mem_cons_of_mem _ hm)
    rw [List.cons_append, splitAux, if_neg hc, ih (c :: cur) ys hcs, List.reverse_cons,
      List.append_assoc, List.singleton_append]

/-- Five fields without the delimiter and a last field of any text, joined by the
delimiter, split back into the six fields. -/
theorem splitFields_six (d : Char) (a b c e g p : List Char)
    (ha : d ∉ a) (hb : d ∉ b) (hc : d ∉ c) (he : d ∉ e) (hg : d ∉ g) :
    splitFields d 6 (List.intercalate [d] [a, b, c, e, g, p]) = [a, b, c, e, g, p] := by
  have hi : List.intercalate [d] [a, b, c, e, g, p] =
      a ++ d :: (b ++ d :: (c ++ d :: (e ++ d :: (g ++ d :: p)))) := by
    simp [List.intercalate]
  rw [hi]
  unfold splitFields
  rw [splitAux_field d 4 a [] _ ha, splitAux_field d 3 b [] _ hb, splitAux_field d 2 c [] _ hc,
    splitAux_field d 1 e [] _ he, splitAux_field d 0 g [] _ hg, splitAux_rest d p []]
  simp

/-- The scenario line of the specification decodes to a Set message of node 5, sensor 2. -/
theorem decode_scenario : decode "5;2;1;0;0;23.5" = .ok msgA := by
  decide

/-- A line of four fields is a malformed frame. -/
theorem decode_four_fields : decode "5;2;1;0" = .error .MalformedFrame := by
  decide

/-! ## Lemmas on the process -/

/-- The ways the main goroutine can go: rejected flags, a failed startup call, or the
consumer loop, which blocks on a send, returns on a closed `ch`, or waits on `ch`. -/
theorem main_status_cases (f : Flags) (w : World) :
    (∃ c, flagParse f w = some c ∧ (main f w).status = .exited c) ∨
      (flagParse f w = none ∧ (main f w).status = .exited 1 ∧
        ((∃ e, w.openPort f.port f.baud = .error e) ∨ w.mqttStart ≠ none ∨
          w.loadJson f.stateFile ≠ none)) ∨
      (flagParse f w = none ∧ (∃ p, w.openPort f.port f.baud = .ok p) ∧ w.mqttStart = none ∧
        w.loadJson f.stateFile = none ∧
        ((main f w).status = .blockedSend .mqttCh ∨
          ((main f w).status = .returned ∧ w.chClosed = true) ∨
          ((main f w).status = .blockedRecv .ch ∧ w.chClosed = false))) := by
  cases hf : flagParse f w with
  | some c =>
    rw [main_flags_rejected f w c hf]
    exact Or.inl ⟨c, rfl, rfl⟩
  | none =>
    refine Or.inr ?_
    cases hp : w.openPort f.port f.baud with
    | error e =>
      rw [main_port_failed f w e hf hp]
      exact Or.inl ⟨rfl, rfl, Or.inl ⟨e, rfl⟩⟩
    | ok p =>
      cases hm : w.mqttStart with
      | some e =>
        rw [main_mqtt_failed f w p e hf hp hm]
        exact Or.inl ⟨rfl, rfl, Or.inr (Or.inl (by simp))⟩
      | none =>
        cases hl : w.loadJson f.stateFile with
        | some e =>
          rw [main_load_failed f w p e hf hp hm hl]
          exact Or.inl ⟨rfl, rfl, Or.inr (Or.inr (by simp))⟩
        | none =>
          rw [main_started f w p hf hp hm hl]
          refine Or.inr ⟨rfl, ⟨p, rfl⟩, rfl, rfl, ?_⟩
          simp only [consumerLoop_status]
          split_ifs with h1 h2
          · exact Or.inl rfl
          · exact Or.inr (Or.inl ⟨rfl, h2⟩)
          · exact Or.inr (Or.inr ⟨rfl, by simpa using h2⟩)

/-- A `baud` value that does not fit an `int` makes `flag.Parse` exit with status 2, before
the serial port is opened. -/
theorem main_baud_out_of_range :
    main { baud := 99999999999999999999 } (sampleWorld twoArrivals true 2) =
      ⟨[.flagParse], .exited 2⟩ := by
  decide

/-- A startup exit of `main` is the end of the process. -/
theorem process_exited (f : Flags) (w : World) (c : Nat)
    (h : (main f w).status = .exited c) : process f w = main f w := by
  unfold process
  simp only [h]

/-- Without a failing web server and without a signal the process is the main goroutine. -/
theorem process_quiet (f : Flags) (w : World) (hweb : w.listenAndServe = none)
    (hsig : w.signals = []) : process f w = main f w := by
  simp only [process]
  cases hs : (main f w).status <;> simp [hweb, hsig]

/-- Once `main` is past its startup, the process ends with the first of the web-server
panic, the exit of the signal goroutine and the return of `main`. -/
theorem process_running (f : Flags) (w : World)
    (h : ∀ c, (main f w).status ≠ .exited c) :
    process f w =
      if w.listenAndServe ≠ none ∧
          (w.signals ≠ [] →
            (main f w).trace.indexOf (.goWebServer w.newNetwork) + 1 + w.webSteps ≤
              (main f w).trace.indexOf (.goSignalHandler w.newNetwork) + 1 + w.signalSteps) ∧
          ((main f w).status = .returned →
            (main f w).trace.indexOf (.goWebServer w.newNetwork) + 1 + w.webSteps ≤
              (main f w).trace.length) then
        ⟨(main f w).trace.take
            ((main f w).trace.indexOf (.goWebServer w.newNetwork) + 1 + w.webSteps) ++
            (webServer f w.listenAndServe).trace,
          (webServer f w.listenAndServe).status⟩
      else if w.signals ≠ [] ∧
          ((main f w).status = .returned →
            (main f w).trace.indexOf (.goSignalHandler w.newNetwork) + 1 + w.signalSteps ≤
              (main f w).trace.length) then
        ⟨(main f w).trace.take
            ((main f w).trace.indexOf (.goSignalHandler w.newNetwork) + 1 + w.signalSteps) ++
            (signalHandler f w.newNetwork w.saveJson w.signals).trace,
          (signalHandler f w.newNetwork w.saveJson w.signals).status⟩
      else main f w := by
  simp only [process]

/-- The status of the process once `main` is past its startup. -/
theorem process_running_status (f : Flags) (w : World)
    (h : ∀ c, (main f w).status ≠ .exited c) :
    (process f w).status = (main f w).status ∨
      (process f w).status = .exited 0 ∨
      ∃ e, w.listenAndServe = some e ∧ (process f w).status = .panicked e := by
  rw [process_running f w h]
  split_ifs with h1 h2
  · cases hl : w.listenAndServe with
    | none => exact absurd hl h1.1
    | some e => exact Or.inr (Or.inr ⟨e, rfl, rfl⟩)
  · cases hg : w.signals with
    | nil => exact absurd hg h2.1
    | cons s rest => exact Or.inr (Or.inl rfl)
  · exact Or.inl rfl

/-! ## The consumer loop -/

/-- C1, as stated, fails: with an MQTT client that takes one message only, `msgB` is
received on `ch` and never sent on `mqttCh`; and a signal, or a web-server panic, that
comes between the receive and the send ends the process with `msgA` received and not
sent. -/
theorem forwarding_counterexample :
    received (process {} (sampleWorld twoArrivals true 1)).trace = [msgA, msgB] ∧
      sent (process {} (sampleWorld twoArrivals true 1)).trace = [msgA] ∧
      received (process {} signalWorld).trace = [msgA] ∧
      sent (process {} signalWorld).trace = [] ∧
      received (process {} lateListenWorld).trace = [msgA] ∧
      sent (process {} lateListenWorld).trace = [] := by
  decide

/-- C1, amended: as long as the MQTT client takes every message offered and no other
goroutine ends the process, the messages sent on `mqttCh` are exactly the messages
received on `ch`, each once and in arrival order, whatever `HandleMessage` does on them. -/
theorem process_forwards_every_message (f : Flags) (w : World) (p : Nat)
    (hf : flagParse f w = none)
    (hp : w.openPort f.port f.baud = .ok p) (hm : w.mqttStart = none)
    (hl : w.loadJson f.stateFile = none) (hlive : w.arrivals.length ≤ w.mqttAccepts)
    (hweb : w.listenAndServe = none) (hsig : w.signals = []) :
    received (process f w).trace = w.arrivals.map Prod.fst ∧
      sent (process f w).trace = w.arrivals.map Prod.fst := by
  rw [process_quiet f w hweb hsig, main_started f w p hf hp hm hl]
  simp only [received_append, sent_append, consumerLoop_received, consumerLoop_sent]
  rw [List.take_of_length_le hlive, List.take_of_length_le (Nat.le_succ_of_le hlive)]
  exact ⟨rfl, rfl⟩

theorem process_forwards_every_message_witness :
    ((sampleWorld twoArrivals true 2).arrivals.length ≤
        (sampleWorld twoArrivals true 2).mqttAccepts) ∧
      received (process {} (sampleWorld twoArrivals true 2)).trace = [msgA, msgB] ∧
      sent (process {} (sampleWorld twoArrivals true 2)).trace = [msgA, msgB] :=
  ⟨by decide, process_forwards_every_message {} (sampleWorld twoArrivals true 2) 7 rfl rfl rfl
    rfl (by decide) rfl rfl⟩

/-- C2, as stated, fails: with an MQTT client that takes one message only, `msgA` arrives
after the failing `msgB`, is received, and `HandleMessage` is never called on it; and a
signal, or a web-server panic, ends the loop although `ch` is not closed, with `msgA`
received and not handled. -/
theorem handling_counterexample :
    received (process {} (sampleWorld failFirst true 1)).trace = [msgB, msgA] ∧
      handled (process {} (sampleWorld failFirst true 1)).trace = [msgB] ∧
      (process {} (sampleWorld failFirst true 1)).status = .blockedSend .mqttCh ∧
      (process {} signalWorld).status = .exited 0 ∧
      signalWorld.chClosed = false ∧
      handled (process {} signalWorld).trace = [] ∧
      (process {} lateListenWorld).status = .panicked "address already in use" ∧
      lateListenWorld.chClosed = false ∧
      handled (process {} lateListenWorld).trace = [] := by
  decide

/-- C2, amended: as long as the MQTT client takes every message offered and no other
goroutine ends the process, an error of `HandleMessage` does not end the loop:
`HandleMessage` is called once on every message in arrival order, each error gives exactly
one log line, and the loop ends exactly when `ch` is closed (otherwise it waits on `ch`). -/
theorem process_handles_every_message (f : Flags) (w : World) (p : Nat)
    (hf : flagParse f w = none)
    (hp : w.openPort f.port f.baud = .ok p) (hm : w.mqttStart = none)
    (hl : w.loadJson f.stateFile = none) (hlive : w.arrivals.length ≤ w.mqttAccepts)
    (hweb : w.listenAndServe = none) (hsig : w.signals = []) :
    handled (process f w).trace = w.arrivals.map Prod.fst ∧
      logLines (process f w).trace = w.arrivals.filterMap errLine ∧
      (logLines (process f w).trace).length =
        (w.arrivals.filter fun a => a.2.err.isSome).length ∧
      ((process f w).status = .returned ↔ w.chClosed = true) ∧
      ((process f w).status = .returned ∨ (process f w).status = .blockedRecv .ch) := by
  rw [process_quiet f w hweb hsig, main_started f w p hf hp hm hl]
  simp only [handled_append, logLines_append, consumerLoop_handled, consumerLoop_logLines,
    consumerLoop_status, List.take_of_length_le hlive, Nat.not_lt.mpr hlive, if_false]
  refine ⟨rfl, rfl, ?_, ?_, ?_⟩
  · rw [← length_filterMap_errLine]; rfl
  · cases w.chClosed <;> simp
  · cases w.chClosed <;> simp

theorem process_handles_every_message_witness :
    handled (process {} (sampleWorld failFirst false 2)).trace = [msgB, msgA] ∧
      logLines (process {} (sampleWorld failFirst false 2)).trace = ["HandleMessage: boom\n"] ∧
      (process {} (sampleWorld failFirst false 2)).status = .blockedRecv .ch := by
  have h := process_handles_every_message {} (sampleWorld failFirst false 2) 7 rfl rfl rfl rfl
    (by decide) rfl rfl
  exact ⟨h.1, h.2.1, by decide⟩

/-! ## Startup and shutdown -/

/-- C3: a failing `LoadJson` is fatal: `main` logs and exits with status 1 right after the
call, so no handler is constructed or started, neither the web server nor the signal
handling is started, and `HandleMessage` is never called. -/
theorem main_load_error_is_fatal (f : Flags) (w : World) (p : Nat) (e : String)
    (hf : flagParse f w = none)
    (hp : w.openPort f.port f.baud = .ok p) (hm : w.mqttStart = none)
    (hl : w.loadJson f.stateFile = some e) :
    (main f w).status = .exited 1 ∧
      (main f w).trace =
        [.flagParse, .openPort f.port f.baud, .makeChan .mqttCh 0, .mqttStart .mqttCh,
         .makeChan .ch 0, .newNetwork w.newNetwork, .loadJson w.newNetwork f.stateFile,
         .fatalf ("Error loading state: " ++ e)] ∧
      (∀ ev ∈ (main f w).trace, ev.isGateway = false) ∧
      handled (main f w).trace = [] ∧
      process f w = main f w := by
  have hproc : process f w = main f w :=
    process_exited f w 1 (by rw [main_load_failed f w p e hf hp hm hl])
  rw [hproc, main_load_failed f w p e hf hp hm hl]
  refine ⟨rfl, rfl, ?_, rfl, rfl⟩
  intro ev hev
  simp only [List.mem_cons, List.mem_singleton, List.not_mem_nil, or_false] at hev
  rcases hev with rfl | rfl | rfl | rfl | rfl | rfl | rfl | rfl <;> rfl

theorem main_load_error_is_fatal_witness :
    badStateWorld.loadJson ".mysensors-state" = some "unexpected end of JSON input" ∧
      (main {} badStateWorld).status = .exited 1 ∧
      handled (main {} badStateWorld).trace = [] :=
  have h := main_load_error_is_fatal {} badStateWorld 7 "unexpected end of JSON input"
    rfl rfl rfl rfl
  ⟨rfl, h.1, h.2.2.2.1⟩

/-- C4: loading from a path where no file exists is not an error: on a fresh registry
`LoadJson` succeeds and the registry stays empty, so `main`, whose `LoadJson` outcome is
this one, constructs and starts the handler and does not exit at startup. -/
theorem load_missing_file_starts_gateway (fs : String → Option String)
    (parse : String → Option Network) (f : Flags) (w : World) (p : Nat)
    (hfile : fs f.stateFile = none) (hf : flagParse f w = none)
    (hp : w.openPort f.port f.baud = .ok p) (hm : w.mqttStart = none)
    (hload : w.loadJson = fun path => loadError (LoadJson fs parse NewNetwork path)) :
    LoadJson fs parse NewNetwork f.stateFile = .ok NewNetwork ∧
      NewNetwork.nodes = [] ∧
      w.loadJson f.stateFile = none ∧
      Event.newHandler (NewHandler p p .ch w.newNetwork) ∈ (main f w).trace ∧
      Event.goStart (NewHandler p p .ch w.newNetwork) ∈ (main f w).trace ∧
      (∀ c, (main f w).status ≠ .exited c) := by
  have h1 : LoadJson fs parse NewNetwork f.stateFile = .ok NewNetwork := by
    unfold LoadJson
    rw [hfile]
  have h2 : w.loadJson f.stateFile = none := by
    rw [hload]
    simp only [h1, loadError]
  refine ⟨h1, rfl, h2, ?_⟩
  rw [main_started f w p hf hp hm h2]
  refine ⟨by simp [startupTrace], by simp [startupTrace], ?_⟩
  intro c hc
  simp only [consumerLoop_status] at hc
  split_ifs at hc

theorem load_missing_file_starts_gateway_witness :
    LoadJson (fun _ => none) (fun _ => none) NewNetwork ".mysensors-state" = .ok NewNetwork ∧
      Event.goStart (NewHandler 7 7 .ch 1) ∈ (main {} firstRunWorld).trace :=
  have h := load_missing_file_starts_gateway (fun _ => none) (fun _ => none) {} firstRunWorld 7
    rfl rfl rfl rfl rfl
  ⟨h.1, h.2.2.2.2.1⟩

/-- C5, as stated, fails: when the serial port cannot be opened `main` exits before
`LoadJson`, which is then called zero times, not once. -/
theorem main_load_once_counterexample :
    loadCalls (main {} noPortWorld).trace = [] ∧
      ¬ (loadCalls (main {} noPortWorld).trace).length = 1 := by
  decide

/-- C5, amended: `LoadJson` is called at most once, on the registry `NewNetwork` returned
and with the state-file path, and exactly once when `flag.Parse` returned and `OpenPort`
and `mqtt.Start` succeeded; every construction or start of the handler and every
`HandleMessage` call comes after that call, which succeeded; `HandleMessage` is only
called on the loaded registry. -/
theorem main_loads_state_before_gateway (f : Flags) (w : World) :
    (loadCalls (main f w).trace = [] ∨
        loadCalls (main f w).trace = [(w.newNetwork, f.stateFile)]) ∧
      (loadCalls (main f w).trace = [(w.newNetwork, f.stateFile)] ↔
        flagParse f w = none ∧ (∃ p, w.openPort f.port f.baud = .ok p) ∧
          w.mqttStart = none) ∧
      (∀ (i : Nat) (ev : Event), (main f w).trace[i]? = some ev → ev.isGateway = true →
        w.loadJson f.stateFile = none ∧
          ∃ j : Nat, j < i ∧ (main f w).trace[j]? = some (.loadJson w.newNetwork f.stateFile)) ∧
      (∀ n m tx, Event.handleMessage n m tx ∈ (main f w).trace → n = w.newNetwork) := by
  cases hf : flagParse f w with
  | some c =>
    rw [main_flags_rejected f w c hf]
    refine ⟨Or.inl rfl, ?_, ?_, ?_⟩
    · simp [loadCalls]
    · intro i ev hi hg
      have hmem : ev ∈ _ := List.mem_iff_getElem?.mpr ⟨i, hi⟩
      simp only [List.mem_singleton] at hmem
      subst hmem
      simp [Event.isGateway] at hg
    · intro n m tx hmem
      simp at hmem
  | none =>
  cases hp : w.openPort f.port f.baud with
  | error e =>
    rw [main_port_failed f w e hf hp]
    refine ⟨Or.inl rfl, ?_, ?_, ?_⟩
    · simp [loadCalls]
    · intro i ev hi hg
      have hmem : ev ∈ _ := List.mem_iff_getElem?.mpr ⟨i, hi⟩
      simp only [List.mem_cons, List.mem_singleton, List.not_mem_nil, or_false] at hmem
      rcases hmem with rfl | rfl | rfl <;> simp [Event.isGateway] at hg
    · intro n m tx hmem
      simp at hmem
  | ok p =>
    cases hm : w.mqttStart with
    | some e =>
      rw [main_mqtt_failed f w p e hf hp hm]
      refine ⟨Or.inl rfl, ?_, ?_, ?_⟩
      · simp [loadCalls]
      · intro i ev hi hg
        have hmem : ev ∈ _ := List.mem_iff_getElem?.mpr ⟨i, hi⟩
        simp only [List.mem_cons, List.mem_singleton, List.not_mem_nil, or_false] at hmem
        rcases hmem with rfl | rfl | rfl | rfl | rfl <;> simp [Event.isGateway] at hg
      · intro n m tx hmem
        simp at hmem
    | none =>
      cases hl : w.loadJson f.stateFile with
      | some e =>
        rw [main_load_failed f w p e hf hp hm hl]
        refine ⟨Or.inr rfl, ?_, ?_, ?_⟩
        · simp [loadCalls]
        · intro i ev hi hg
          have hmem : ev ∈ _ := List.mem_iff_getElem?.mpr ⟨i, hi⟩
          simp only [List.mem_cons, List.mem_singleton, List.not_mem_nil, or_false] at hmem
          rcases hmem with rfl | rfl | rfl | rfl | rfl | rfl | rfl | rfl <;>
            simp [Event.isGateway] at hg
        · intro n m tx hmem
          simp at hmem
      | none =>
        rw [main_started f w p hf hp hm hl]
        have hload : loadCalls (startupTrace f w.newNetwork p ++
            (consumerLoop w.newNetwork (NewHandler p p .ch w.newNetwork) w.chClosed
              w.mqttAccepts w.arrivals).trace) = [(w.newNetwork, f.stateFile)] := by
          rw [loadCalls_append, consumerLoop_loadCalls]
          rfl
        refine ⟨Or.inr hload, ?_, ?_, ?_⟩
        · simp [hload]
        · intro i ev hi hg
          refine ⟨rfl, 6, ?_, ?_⟩
          · by_contra hlt
            have hi7 : i < 7 := by omega
            simp only at hi
            rw [List.getElem?_append_left (by simp [startupTrace]; omega)] at hi
            interval_cases i <;> simp [startupTrace] at hi <;> subst hi <;>
              simp [Event.isGateway] at hg
          · simp [startupTrace]
        · intro n m tx hmem
          simp only [List.mem_append] at hmem
          rcases hmem with hmem | hmem
          · simp [startupTrace] at hmem
          · exact (consumerLoop_handleMessage _ _ _ _ _ _ _ _ hmem).1

theorem main_loads_state_before_gateway_witness :
    loadCalls (main {} (sampleWorld twoArrivals true 2)).trace = [(1, ".mysensors-state")] ∧
      (main {} (sampleWorld twoArrivals true 2)).trace[16]? = some (.handleMessage 1 msgA ⟨7, 7, .ch, 1⟩) ∧
      ∃ j : Nat, j < 16 ∧ (main {} (sampleWorld twoArrivals true 2)).trace[j]? =
        some (.loadJson 1 ".mysensors-state") :=
  have h := main_loads_state_before_gateway {} (sampleWorld twoArrivals true 2)
  ⟨h.2.1.mpr ⟨rfl, ⟨7, rfl⟩, rfl⟩, by decide,
    (h.2.2.1 16 (.handleMessage 1 msgA ⟨7, 7, .ch, 1⟩) (by decide) rfl).2⟩

/-- C6: on the first signal the signal goroutine calls `SaveJson` exactly once, with the
path `LoadJson` was called with at startup (the `state_file` flag), and then exits with
status 0 whether the save succeeded or not; a failed save gives exactly one log line. -/
theorem signal_saves_once_then_exits (f : Flags) (w : World) (p : Nat)
    (save : String → Option String) (s : Signal) (rest : List Signal)
    (hf : flagParse f w = none)
    (hp : w.openPort f.port f.baud = .ok p) (hm : w.mqttStart = none)
    (hl : w.loadJson f.stateFile = none) :
    Event.goSignalHandler w.newNetwork ∈ (main f w).trace ∧
      loadCalls (main f w).trace = [(w.newNetwork, f.stateFile)] ∧
      saveCalls (signalHandler f w.newNetwork save (s :: rest)).trace =
        [(w.newNetwork, f.stateFile)] ∧
      (signalHandler f w.newNetwork save (s :: rest)).trace.head? = some (.recvSignal s) ∧
      (signalHandler f w.newNetwork save (s :: rest)).trace.getLast? = some (.exit 0) ∧
      (signalHandler f w.newNetwork save (s :: rest)).status = .exited 0 ∧
      logLines (signalHandler f w.newNetwork save (s :: rest)).trace =
        (save f.stateFile).toList.map (saveErrLine f) ∧
      (logLines (signalHandler f w.newNetwork save (s :: rest)).trace).length =
        if save f.stateFile = none then 0 else 1 := by
  refine ⟨?_, ?_, ?_⟩
  · rw [main_started f w p hf hp hm hl]
    simp [startupTrace]
  · rw [main_started f w p hf hp hm hl]
    simp only [loadCalls_append, consumerLoop_loadCalls]
    rfl
  · rw [signalHandler_cons]
    cases save f.stateFile <;> simp [saveCalls, logLines]

theorem signal_saves_once_then_exits_witness :
    saveCalls (signalHandler {} 1 (fun _ => some "disk full") [.SIGTERM, .SIGINT]).trace =
        [(1, ".mysensors-state")] ∧
      loadCalls (main {} (sampleWorld twoArrivals true 2)).trace = [(1, ".mysensors-state")] ∧
      (signalHandler {} 1 (fun _ => some "disk full") [.SIGTERM, .SIGINT]).status = .exited 0 ∧
      logLines (signalHandler {} 1 (fun _ => some "disk full") [.SIGTERM, .SIGINT]).trace =
        ["Error writing state file [.mysensors-state]: disk full"] :=
  have h := signal_saves_once_then_exits {} (sampleWorld twoArrivals true 2) 7
    (fun _ => some "disk full") .SIGTERM [.SIGINT] rfl rfl rfl rfl
  ⟨h.2.2.1, h.2.1, h.2.2.2.2.2.1, h.2.2.2.2.2.2.1⟩

/-- C7, as stated, fails: with the port open and the state loadable, a failing `mqtt.Start`
makes the process exit with status 1, and a failing `ListenAndServe` makes it panic. -/
theorem fatal_failures_counterexample :
    flagParse {} noMqttWorld = none ∧
      noMqttWorld.openPort "/dev/ttyUSB0" 115200 = .ok 7 ∧
      noMqttWorld.loadJson ".mysensors-state" = none ∧
      (process {} noMqttWorld).status = .exited 1 ∧
      flagParse {} badListenWorld = none ∧
      badListenWorld.openPort "/dev/ttyUSB0" 115200 = .ok 7 ∧
      badListenWorld.loadJson ".mysensors-state" = none ∧
      (process {} badListenWorld).status = .panicked "address already in use" := by
  decide

/-- C7, amended: the process ends with a failure exactly in these cases: `flag.Parse`
rejects the command line (it exits with its own status), `OpenPort`, `mqtt.Start` or
`LoadJson` fails at startup (exit status 1), or `ListenAndServe` fails (panic of the
web-server goroutine, unless the process has ended before).  No other failure, in
particular no error of `HandleMessage` or `SaveJson`, makes the process exit with a
non-zero status or panic. -/
theorem process_fatal_iff_named_failure (f : Flags) (w : World) :
    (∀ c, flagParse f w = some c → (process f w).status = .exited c) ∧
      (flagParse f w = none →
        ((∃ e, w.openPort f.port f.baud = .error e) ∨ w.mqttStart ≠ none ∨
          w.loadJson f.stateFile ≠ none) →
        (process f w).status = .exited 1) ∧
      (∀ c, (process f w).status = .exited c → c ≠ 0 →
        flagParse f w = some c ∨
          (c = 1 ∧ ((∃ e, w.openPort f.port f.baud = .error e) ∨ w.mqttStart ≠ none ∨
            w.loadJson f.stateFile ≠ none))) ∧
      (∀ e, (process f w).status = .panicked e → w.listenAndServe = some e) ∧
      (∀ e p, flagParse f w = none → w.openPort f.port f.baud = .ok p → w.mqttStart = none →
        w.loadJson f.stateFile = none → w.listenAndServe = some e → w.signals = [] →
        w.chClosed = false → (process f w).status = .panicked e) := by
  rcases main_status_cases f w with ⟨c, hf, hs⟩ | ⟨hf, hs, hfail⟩ | ⟨hf, ⟨p, hp⟩, hm, hl, hs⟩
  · rw [process_exited f w c hs, hs]
    refine ⟨?_, ?_, ?_, ?_, ?_⟩
    · intro c2 h2
      rw [hf] at h2
      cases h2
      rfl
    · intro h2
      rw [hf] at h2
      cases h2
    · intro c2 h2 _
      cases h2
      exact Or.inl hf
    · intro e h2
      cases h2
    · intro e p2 h2
      rw [hf] at h2
      cases h2
  · rw [process_exited f w 1 hs, hs]
    refine ⟨?_, ?_, ?_, ?_, ?_⟩
    · intro c2 h2
      rw [hf] at h2
      cases h2
    · intro _ _
      rfl
    · intro c2 h2 _
      cases h2
      exact Or.inr ⟨rfl, hfail⟩
    · intro e h2
      cases h2
    · intro e p2 _ hp2 hm2 hl2
      rcases hfail with ⟨e2, he2⟩ | h3 | h3
      · rw [hp2] at he2
        cases he2
      · exact absurd hm2 h3
      · exact absurd hl2 h3
  · have hne : ∀ c, (main f w).status ≠ .exited c := by
      intro c hc
      rcases hs with h | ⟨h, _⟩ | ⟨h, _⟩ <;> rw [h] at hc <;> cases hc
    have hcases := process_running_status f w hne
    refine ⟨?_, ?_, ?_, ?_, ?_⟩
    · intro c2 h2
      rw [hf] at h2
      cases h2
    · intro _ h2
      rcases h2 with ⟨e2, he2⟩ | h3 | h3
      · rw [hp] at he2
        cases he2
      · exact absurd hm h3
      · exact absurd hl h3
    · intro c2 h2 hc2
      rcases hcases with h | h | ⟨e, _, h⟩
      · rw [h] at h2
        exact absurd h2 (hne c2)
      · rw [h] at h2
        cases h2
        exact absurd rfl hc2
      · rw [h] at h2
        cases h2
    · intro e h2
      rcases hcases with h | h | ⟨e2, hl2, h⟩
      · rw [h] at h2
        rcases hs with h3 | ⟨h3, _⟩ | ⟨h3, _⟩ <;> rw [h3] at h2 <;> cases h2
      · rw [h] at h2
        cases h2
      · rw [h] at h2
        cases h2
        exact hl2
    · intro e p2 _ _ _ _ hlisten hsig hclosed
      have hnr : (main f w).status ≠ .returned := by
        intro hr
        rcases hs with h | ⟨_, h⟩ | ⟨h, _⟩
        · rw [h] at hr
          cases hr
        · rw [hclosed] at h
          cases h
        · rw [h] at hr
          cases hr
      rw [process_running f w hne, if_pos]
      · rw [hlisten]
        rfl
      · refine ⟨by simp [hlisten], fun h => absurd hsig h, fun h => absurd h hnr⟩

/-! ## The frame codec -/

/-- C8: for every valid message, encoding succeeds and decoding the line gives the message
back, equal in all six fields. -/
theorem codec_roundtrip (m : Message) (hv : m.Valid) :
    (encode m).bind decode = .ok m := by
  obtain ⟨hn, hs, hp⟩ := hv
  unfold encode
  rw [if_neg (Nat.not_lt.mpr hp)]
  show decode _ = _
  unfold decode
  simp only
  rw [splitFields_six delimiter _ _ _ _ _ _ (formatNat_no_delimiter _)
    (formatNat_no_delimiter _) (formatNat_no_delimiter _) (formatNat_no_delimiter _)
    (formatNat_no_delimiter _)]
  simp only [parseNat_formatNat, Option.bind, ofCode_code, ackOfCode_ackCode]
  rw [if_pos ⟨hn, hs⟩]

theorem codec_roundtrip_witness :
    msgSemi.Valid ∧ encode msgSemi = .ok "1;2;1;0;0;a;b" ∧
      (encode msgSemi).bind decode = .ok msgSemi :=
  ⟨by decide, by decide, codec_roundtrip msgSemi (by decide)⟩

/-! ## Transport and hand-off -/

/-- C9: the handler is constructed with the opened serial port as both its reader and its
writer, every `HandleMessage` call is given the `Tx` of that handler, and the writes made
for the registry are the wire lines of its outbound messages, all on that same port. -/
theorem main_responses_use_the_serial_port (f : Flags) (w : World) (p : Nat)
    (hf : flagParse f w = none)
    (hp : w.openPort f.port f.baud = .ok p) (hm : w.mqttStart = none)
    (hl : w.loadJson f.stateFile = none) :
    Event.newHandler (NewHandler p p .ch w.newNetwork) ∈ (main f w).trace ∧
      (∀ x, Event.newHandler x ∈ (main f w).trace → x.reader = p ∧ x.writer = p) ∧
      (∀ n m tx, Event.handleMessage n m tx ∈ (main f w).trace →
        tx = NewHandler p p .ch w.newNetwork) ∧
      (∀ q line, Event.portWrite q line ∈ (main f w).trace → q = p) ∧
      portWrites (main f w).trace =
        wireLines p ((w.arrivals.take w.mqttAccepts).map fun a => a.2.outbound).flatten := by
  rw [main_started f w p hf hp hm hl]
  refine ⟨by simp [startupTrace], ?_, ?_, ?_, ?_⟩
  · intro x hx
    simp only [List.mem_append] at hx
    rcases hx with hx | hx
    · simp [startupTrace] at hx
      subst hx
      exact ⟨rfl, rfl⟩
    · exact absurd rfl ((consumerLoop_no_startup _ _ _ _ _ _ hx).2.1 x)
  · intro n m tx hx
    simp only [List.mem_append] at hx
    rcases hx with hx | hx
    · simp [startupTrace] at hx
    · exact (consumerLoop_handleMessage _ _ _ _ _ _ _ _ hx).2
  · intro q line hx
    simp only [List.mem_append] at hx
    rcases hx with hx | hx
    · simp [startupTrace] at hx
    · exact consumerLoop_portWrite _ _ _ _ _ _ _ hx
  · simp only [portWrites_append, consumerLoop_portWrites]
    rfl

theorem main_responses_use_the_serial_port_witness :
    (sampleWorld twoArrivals true 2).openPort "/dev/ttyUSB0" 115200 = .ok 7 ∧
      portWrites (main {} (sampleWorld twoArrivals true 2)).trace = [(7, "255;255;3;0;4;9")] :=
  have h := main_responses_use_the_serial_port {} (sampleWorld twoArrivals true 2) 7 rfl rfl
    rfl rfl
  ⟨rfl, h.2.2.2.2.trans (by decide)⟩

/-- C10, as stated, fails: the hand-off channel is unbuffered and the send on `mqttCh` is
made inside the loop, so with an MQTT client that takes nothing the loop blocks on its
first send: the first message is never handled and the second is never received. -/
theorem stalled_mqtt_counterexample :
    ¬ (0 < chanCap .ch) ∧ ¬ (0 < chanCap .mqttCh) ∧
      (main {} (sampleWorld twoArrivals true 0)).status = .blockedSend .mqttCh ∧
      received (main {} (sampleWorld twoArrivals true 0)).trace = [msgA] ∧
      sent (main {} (sampleWorld twoArrivals true 0)).trace = [] ∧
      handled (main {} (sampleWorld twoArrivals true 0)).trace = [] := by
  decide

/-- C10, amended: both channels are unbuffered and the MQTT send is part of the consumer
loop, so an MQTT client that stops after `mqttAccepts` messages blocks the loop on the next
send: exactly the first `mqttAccepts` messages are forwarded and handled, one more is
received, and nothing after it is received or handled. -/
theorem stalled_mqtt_blocks_the_loop (f : Flags) (w : World) (p : Nat)
    (hf : flagParse f w = none)
    (hp : w.openPort f.port f.baud = .ok p) (hm : w.mqttStart = none)
    (hl : w.loadJson f.stateFile = none) (hstall : w.mqttAccepts < w.arrivals.length) :
    chanCap .ch = 0 ∧ chanCap .mqttCh = 0 ∧
      (main f w).status = .blockedSend .mqttCh ∧
      sent (main f w).trace = (w.arrivals.take w.mqttAccepts).map Prod.fst ∧
      handled (main f w).trace = (w.arrivals.take w.mqttAccepts).map Prod.fst ∧
      received (main f w).trace = (w.arrivals.take (w.mqttAccepts + 1)).map Prod.fst := by
  rw [main_started f w p hf hp hm hl]
  simp only [received_append, sent_append, handled_append, consumerLoop_received,
    consumerLoop_sent, consumerLoop_handled, consumerLoop_status, hstall, if_true]
  exact ⟨rfl, rfl, trivial, rfl, rfl, rfl⟩

theorem stalled_mqtt_blocks_the_loop_witness :
    (sampleWorld twoArrivals true 1).mqttAccepts < (sampleWorld twoArrivals true 1).arrivals.length ∧
      (main {} (sampleWorld twoArrivals true 1)).status = .blockedSend .mqttCh ∧
      handled (main {} (sampleWorld twoArrivals true 1)).trace = [msgA] ∧
      received (main {} (sampleWorld twoArrivals true 1)).trace = [msgA, msgB] :=
  have h := stalled_mqtt_blocks_the_loop {} (sampleWorld twoArrivals true 1) 7 rfl rfl rfl rfl
    (by decide)
  ⟨by decide, h.2.2.1, h.2.2.2.2.1, h.2.2.2.2.2⟩

end MySensors
